import Mathlib

/-!
Verification of the address-resolution core of the weather application
(`GeocodingService` in the Angular service file): `parseAddress`,
`stripRoadType`, `fuzzyMatch`, `levenshteinDistance`, `checkKnownMismatches`,
`validateAddressMatch`, `cityMatchStrict` and `findBestResult`, plus the
`geocode` wrapper that classifies outcomes into `VALIDATION_ERROR` /
`NO_RESULTS`.

Embedding conventions:
- JavaScript strings are Lean `String`s; an absent (`undefined`) component
  field and the empty string are both modelled as `""`: every access in the
  source is either a truthiness test, an `x || y` chain, or an equality
  comparison guarded by truthiness, so the two are observationally identical.
- JS truthiness of a string is `s != ""`.
- `split(/\s+/)` is modelled for trimmed inputs (all call sites trim first):
  it yields `[""]` on the empty string and the list of non-empty
  whitespace-separated words otherwise, exactly as in JS.
- Machine numbers that matter (the provider confidence, 0-10 integer scale)
  are `Int`; no floating point is involved in the selection logic.
- Thrown `Error`s are `Except.error` carrying the exact message string;
  `findBestResult`'s three behaviours (return candidate, throw, return null)
  are an explicit outcome type `FBR`.
- `checkKnownMismatches` is threaded as an explicit parameter `km` through
  `validateAddressMatchKM` / `findBestResultKM` so that its influence on the
  selection outcome can be stated; the source functions are recovered by
  instantiating `km := checkKnownMismatches`.
-/

/-! ## String primitives mirroring the JavaScript ones -/

/-- JS `String.prototype.toLowerCase` (ASCII inputs). -/
def toLowerStr (s : String) : String := String.mk (s.data.map Char.toLower)

/-- JS `String.prototype.trim` (ASCII whitespace). -/
def jsTrim (s : String) : String :=
  String.mk (((s.data.dropWhile Char.isWhitespace).reverse.dropWhile Char.isWhitespace).reverse)

/-- Splitter for JS `String.prototype.split` with a single-character class:
splitting `""` yields `[""]`, separators are not kept. -/
def splitCharAux (p : Char → Bool) (acc : List Char) : List Char → List (List Char)
  | [] => [acc.reverse]
  | c :: rest =>
    if p c then acc.reverse :: splitCharAux p [] rest
    else splitCharAux p (c :: acc) rest

/-- JS `s.split(sep)` for a one-character separator class. -/
def jsSplit (p : Char → Bool) (s : String) : List String :=
  (splitCharAux p [] s.data).map String.mk

/-- JS `s.split(/\s+/)` for trimmed `s` (every call site in the source first
trims): `[""]` on the empty string, else the non-empty words. -/
def splitWsJS (s : String) : List String :=
  if s = "" then [""]
  else (jsSplit Char.isWhitespace s).filter (fun w => w != "")

/-- Boolean prefix test on character lists. -/
def charsPrefix : List Char → List Char → Bool
  | [], _ => true
  | _ :: _, [] => false
  | a :: as, b :: bs => a == b && charsPrefix as bs

/-- JS `s.startsWith(pre)`. -/
def jsStartsWith (s pre : String) : Bool := charsPrefix pre.data s.data

/-- Boolean contiguous-sublist test on character lists. -/
def charsContains (needle : List Char) : List Char → Bool
  | [] => needle.isEmpty
  | c :: rest => charsPrefix needle (c :: rest) || charsContains needle rest

/-- JS `s.includes(sub)`. -/
def jsIncludes (s sub : String) : Bool := charsContains sub.data s.data

/-- JS `s.substring(n)` for ASCII strings. -/
def dropStr (n : Nat) (s : String) : String := String.mk (s.data.drop n)

/-- JS `arr.join(sep)`. -/
def joinSep (sep : String) : List String → String
  | [] => ""
  | [x] => x
  | x :: y :: rest => x ++ sep ++ joinSep sep (y :: rest)

/-- JS `x || y` on strings (first operand if truthy, else second). -/
def jsOr (a b : String) : String := if a != "" then a else b

/-- JS regex `\w` (word character). -/
def isWordChar (c : Char) : Bool := c.isAlphanum || c == '_'

/-- If the list starts with five digits, return them and the remainder. -/
def pcMatchAt : List Char → Option (String × List Char)
  | c1 :: c2 :: c3 :: c4 :: c5 :: rest =>
    if c1.isDigit && c2.isDigit && c3.isDigit && c4.isDigit && c5.isDigit then
      some (String.mk [c1, c2, c3, c4, c5], rest)
    else none
  | _ => none

/-- Left-to-right scan for the regex `\b\d{5}\b`: five consecutive digits whose
neighbours (if any) are not word characters; `prev` is the character before the
current scan position. -/
def pcScan : Option Char → List Char → Option String
  | _, [] => none
  | prev, c :: rest =>
    let prevBoundary :=
      match prev with
      | none => true
      | some p => !(isWordChar p)
    match (if prevBoundary then pcMatchAt (c :: rest) else none) with
    | some (m, tail) =>
      if (match tail with | [] => true | t :: _ => !(isWordChar t)) then some m
      else pcScan (some c) rest
    | none => pcScan (some c) rest

/-- First match of `/\b\d{5}\b/` in `s` (JS `s.match(postcodeRegex)?.[0]`). -/
def postcodeRegexFind (s : String) : Option String := pcScan none s.data

/-- JS `postcodeRegex.test(s)`. -/
def postcodeRegexTest (s : String) : Bool := (postcodeRegexFind s).isSome

/-- One row-update of the Wagner-Fischer edit-distance table: `c2` is the
current character of the second string, `s1` the first string, `prev` the
previous row aligned from the diagonal cell, `left` the already-computed cell
to the left. -/
def levNextRow (c2 : Char) : List Char → Nat → List Nat → List Nat
  | c1 :: s1t, left, pdiag :: ptail =>
    let pup := ptail.headD 0
    let cost := if c1 == c2 then 0 else 1
    let v := Nat.min (left + 1) (Nat.min (pup + 1) (pdiag + cost))
    v :: levNextRow c2 s1t v ptail
  | _, _, _ => []

/-- Row iteration of the edit-distance table over the second string. -/
def levRows (s1 : List Char) : List Char → List Nat → Nat → List Nat
  | [], row, _ => row
  | c2 :: s2t, row, j => levRows s1 s2t ((j + 1) :: levNextRow c2 s1 (j + 1) row) (j + 1)

/-- `levenshteinDistance` from the source: classic dynamic-programming edit
distance with unit-cost insert/delete/substitute (the JS fills `matrix[j][i]`
with `j` over `str2` and `i` over `str1`; `levRows` computes the same rows). -/
def levenshteinDistance (str1 str2 : String) : Nat :=
  (levRows str1.data str2.data (List.range (str1.data.length + 1)) 0).getLastD 0

/-! ## Data model -/

/-- The provider components bag (`OpenCageComponent` fields the selection logic
reads). An absent field is `""` (see the embedding conventions above). -/
structure Components where
  road : String := ""
  square : String := ""
  city : String := ""
  town : String := ""
  village : String := ""
  hamlet : String := ""
  county : String := ""
  state : String := ""
  state_district : String := ""
  postcode : String := ""
  country_code : String := ""
deriving Repr, DecidableEq

/-- One provider result (`OpenCageResult`): the fields `findBestResult` reads.
The geometry and formatted string are irrelevant to selection and omitted. -/
structure Candidate where
  components : Components
  confidence : Int
deriving Repr, DecidableEq

/-- The object produced by `parseAddress`. A key that a template branch does
not set is `""` (JS `undefined`). -/
structure ParsedAddress where
  street : String := ""
  city : String := ""
  province : String := ""
  county : String := ""
  postcode : String := ""
  country : String := ""
deriving Repr, DecidableEq

/-- The three observable behaviours of `findBestResult`: return a candidate,
throw an `Error` with a message, or return `null`. -/
inductive FBR where
  | found : Candidate → FBR
  | err : String → FBR
  | nullResult : FBR
deriving Repr, DecidableEq

/-- Scored entry of the `validResults` array in the scoring fallback. -/
structure Scored where
  result : Candidate
  score : Int
deriving Repr, DecidableEq

/-- Outcome of the `geocode` response handler (lines 77-105): a location (we
keep the selected candidate), a `VALIDATION_ERROR:`-tagged failure, or a
`NO_RESULTS:`-tagged failure. -/
inductive GeoOutcome where
  | ok : Candidate → GeoOutcome
  | validationError : String → GeoOutcome
  | noResults : String → GeoOutcome
deriving Repr, DecidableEq

/-- Discriminator for `NO_RESULTS` outcomes. -/
def GeoOutcome.isNoResults : GeoOutcome → Bool
  | .noResults _ => true
  | _ => false

/-- Discriminator for `VALIDATION_ERROR` outcomes. -/
def GeoOutcome.isValidationError : GeoOutcome → Bool
  | .validationError _ => true
  | _ => false

/-- The type of `checkKnownMismatches`-shaped functions, threaded through the
selector so claim C8 can quantify over it. -/
abbrev KM := String → String → String → Bool

/-! ## The matching helpers, translated from the source -/

/-- The fixed road-type vocabulary (`roadTypes` in the source). -/
def roadTypes : List String :=
  ["via", "viale", "piazza", "corso", "largo", "vicolo", "strada", "piazzale"]

/-- `stripRoadType` (lines 134-145): lower-cases and trims, and removes a
leading road-type word followed by a space. -/
def stripRoadType (road : String) : String :=
  if road = "" then ""
  else
    let normalized := toLowerStr (jsTrim road)
    match roadTypes.find? (fun t => jsStartsWith normalized (t ++ " ")) with
    | some t => jsTrim (dropStr (t.data.length + 1) normalized)
    | none => normalized

/-- `fuzzyMatch` (lines 668-696): exact, word-count-gated substring,
word-boundary prefix, and word-count-gated edit-distance rules, in order. -/
def fuzzyMatch (str1 str2 : String) : Bool :=
  if str1 = "" || str2 = "" then false
  else
    let s1 := jsTrim (toLowerStr str1)
    let s2 := jsTrim (toLowerStr str2)
    if s1 = s2 then true
    else
      let s1Words := splitWsJS s1
      let s2Words := splitWsJS s2
      if s1Words.length == s2Words.length && (jsIncludes s1 s2 || jsIncludes s2 s1) then true
      else if (jsStartsWith s2 (s1 ++ " ") || jsStartsWith s1 (s2 ++ " "))
              && (s1Words.length > 1 || s2Words.length > 1) then true
      else if s1Words.length == s2Words.length && levenshteinDistance s1 s2 ≤ 2 then true
      else false

/-- `cityMatchStrict` (closure at lines 207-220 of `findBestResult`): rejects a
geocoded name with more words than the input (the JS returns `false` in both
arms of the inner test), otherwise defers to `fuzzyMatch`. -/
def cityMatchStrict (geoName inputName : String) : Bool :=
  if geoName = "" || inputName = "" then false
  else
    let geoWords := splitWsJS (jsTrim (toLowerStr geoName))
    let inputWords := splitWsJS (jsTrim (toLowerStr inputName))
    if geoWords.length > inputWords.length then
      if joinSep " " (geoWords.take inputWords.length) = joinSep " " inputWords then false
      else false
    else fuzzyMatch geoName inputName

/-- The direct city-to-forbidden-province table of `checkKnownMismatches`. -/
def mismatchesTable : List (String × List String) :=
  [("firenze", ["milano", "milan"]),
   ("rome", ["milano", "milan"]),
   ("roma", ["milano", "milan"]),
   ("napoli", ["milano", "milan"]),
   ("naples", ["milano", "milan"]),
   ("torino", ["roma", "rome"]),
   ("turin", ["roma", "rome"]),
   ("palermo", ["milano", "milan", "roma", "rome"]),
   ("catania", ["milano", "milan", "roma", "rome"])]

/-- The major-province alias table of `checkKnownMismatches`. -/
def majorProvinces : List (String × List String) :=
  [("milano", ["milan", "mi"]),
   ("roma", ["rome", "rm"]),
   ("napoli", ["naples", "na"]),
   ("torino", ["turin", "to"]),
   ("firenze", ["florence", "fi"]),
   ("bologna", ["bo"]),
   ("venezia", ["venice", "ve"])]

/-- The `Object.entries` loop over `majorProvinces` (lines 650-660). -/
def majorProvincesLoop (inputProvinceLower geocodedProvinceLower : String) :
    List (String × List String) → Bool
  | [] => false
  | (province, aliases) :: rest =>
    if jsIncludes inputProvinceLower province then
      let isInSameProvince :=
        aliases.any (fun a => jsIncludes geocodedProvinceLower (toLowerStr a))
          || jsIncludes geocodedProvinceLower province
      if !isInSameProvince then true
      else majorProvincesLoop inputProvinceLower geocodedProvinceLower rest
    else majorProvincesLoop inputProvinceLower geocodedProvinceLower rest

/-- `checkKnownMismatches` (lines 611-663). -/
def checkKnownMismatches (geocodedCity inputProvince geocodedProvince : String) : Bool :=
  let cityLower := toLowerStr geocodedCity
  let provinceLower := toLowerStr inputProvince
  match mismatchesTable.find? (fun kv => kv.1 == cityLower) with
  | some kv => kv.2.contains provinceLower
  | none =>
    majorProvincesLoop (toLowerStr inputProvince) (toLowerStr geocodedProvince) majorProvinces

/-! ## The address parser -/

/-- The street-normalization step shared by `parseAddress` (lines 428-458):
with at least three whitespace words, drop the second word when the first two
are road types, else drop the first when it is a road type duplicated by the
second (the second rule is unreachable, as in the source). -/
def roadTypeNormalize (street : String) : String :=
  match splitWsJS street with
  | w0 :: w1 :: w2 :: rest =>
    if roadTypes.contains (toLowerStr w0) && roadTypes.contains (toLowerStr w1) then
      joinSep " " (w0 :: w2 :: rest)
    else if roadTypes.contains (toLowerStr w0) && toLowerStr w0 == toLowerStr w1 then
      joinSep " " (w1 :: w2 :: rest)
    else street
  | _ => street

/-- `parseAddress` (lines 424-531): comma split, trim, road-type
normalization of the first segment, a `\b\d{5}\b` scan over all segments, then
a positional template keyed on the segment count. The source's duplicated
`length === 4` / `length === 3` branches are dead and omitted. -/
def parseAddress (address : String) : ParsedAddress :=
  let parts :=
    match (jsSplit (fun c => c == ',') address).map jsTrim with
    | [] => []
    | p0 :: rest => roadTypeNormalize p0 :: rest
  let postcode :=
    match parts.findSome? postcodeRegexFind with
    | some m => m
    | none => ""
  if parts.length = 4 then
    let lastIsPostcode := postcodeRegexTest (parts.getD 3 "")
    { street := parts.getD 0 "", city := parts.getD 1 "",
      province := parts.getD 2 "", county := parts.getD 2 "",
      postcode := jsOr postcode (if lastIsPostcode then parts.getD 3 "" else "") }
  else if parts.length = 3 then
    let lastIsPostcode := postcodeRegexTest (parts.getD 2 "")
    { street := parts.getD 0 "", city := parts.getD 1 "",
      province := if lastIsPostcode then "" else parts.getD 2 "",
      county := if lastIsPostcode then "" else parts.getD 2 "",
      postcode := jsOr postcode (if lastIsPostcode then parts.getD 2 "" else "") }
  else if parts.length = 5 then
    let lastIsPostcode := postcodeRegexTest (parts.getD 4 "")
    { country := parts.getD 0 "", street := parts.getD 1 "", city := parts.getD 2 "",
      county := parts.getD 3 "",
      postcode := jsOr postcode (if lastIsPostcode then parts.getD 4 "" else "") }
  else
    { street := parts.getD 0 "", city := parts.getD 1 "",
      province := parts.getD 2 "", county := parts.getD 2 "",
      postcode := postcode }

/-! ## The deep validation check and the scoring fallback -/

/-- `validateAddressMatch` (lines 536-606), with `checkKnownMismatches`
abstracted as `km`. `Except.error` models the thrown postcode-mismatch
`Error`; note the known-mismatch test returns `false` in both arms, exactly as
in the source. -/
def validateAddressMatchKM (km : KM) (components : Components)
    (addressParts : ParsedAddress) : Except String Bool :=
  if components.country_code != "it" then .ok false
  else
    let geocodedCity := jsOr components.city (jsOr components.town components.village)
    let geocodedProvince := components.county
    let geocodedRegion := jsOr components.state components.state_district
    let geocodedPostcode := components.postcode
    if !(fuzzyMatch geocodedCity addressParts.city) then .ok false
    else if addressParts.province != ""
        && !(fuzzyMatch geocodedProvince addressParts.province
             || fuzzyMatch geocodedRegion addressParts.province) then
      if km geocodedCity addressParts.province geocodedProvince then .ok false else .ok false
    else if addressParts.postcode != "" && geocodedPostcode != ""
        && geocodedPostcode != addressParts.postcode then
      .error ("VALIDATION_ERROR: Postcode mismatch: found \"" ++ geocodedPostcode
        ++ "\" instead of \"" ++ addressParts.postcode
        ++ "\". Please verify the entered address.")
    else .ok true

/-- `validateAddressMatch` as in the source. -/
def validateAddressMatch : Components → ParsedAddress → Except String Bool :=
  validateAddressMatchKM checkKnownMismatches

/-- The filter predicate of line 176-178: components carry a road or square. -/
def hasRoadOrSquare (r : Candidate) : Bool :=
  r.components.road != "" || r.components.square != ""

/-- The international arm of the scoring loop (lines 292-337): sequential
city/postcode/county checks, each `continue`-ing with a diagnostic on a
present-on-both-sides mismatch, else accumulating a +1 match score. -/
def scoreInternational (addressParts : ParsedAddress) (result : Candidate) :
    List Scored × List String :=
  let geocodedCity :=
    jsOr result.components.city (jsOr result.components.town result.components.village)
  let geocodedPostcode := result.components.postcode
  let geocodedCounty := result.components.county
  let inputPostcode := addressParts.postcode
  let inputCounty := addressParts.county
  if geocodedCity != "" && addressParts.city != ""
      && !(fuzzyMatch geocodedCity addressParts.city) then
    ([], ["City mismatch: found \"" ++ geocodedCity ++ "\" instead of \""
      ++ addressParts.city ++ "\""])
  else
    let m1 : Int := if geocodedCity != "" && addressParts.city != "" then 1 else 0
    if inputPostcode != "" && geocodedPostcode != ""
        && toLowerStr geocodedPostcode != toLowerStr inputPostcode then
      ([], ["Postcode mismatch: found \"" ++ geocodedPostcode ++ "\" instead of \""
        ++ inputPostcode ++ "\""])
    else
      let m2 : Int := m1 + (if inputPostcode != "" && geocodedPostcode != "" then 1 else 0)
      if inputCounty != "" && geocodedCounty != ""
          && !(fuzzyMatch geocodedCounty inputCounty) then
        ([], ["County mismatch: found \"" ++ geocodedCounty ++ "\" instead of \""
          ++ inputCounty ++ "\""])
      else
        let m3 : Int := m2 + (if inputCounty != "" && geocodedCounty != "" then 1 else 0)
        ([⟨result, m3 + result.confidence⟩], [])

/-- The diagnostic chosen at lines 375-385: the known-mismatch table only
selects between the two message texts. -/
def provinceDiag (km : KM) (geocodedCity geocodedProvince : String)
    (addressParts : ParsedAddress) : String :=
  if km geocodedCity addressParts.province geocodedProvince then
    "Invalid geographical combination: \"" ++ addressParts.city
      ++ "\" is not in the province of \"" ++ addressParts.province ++ "\""
  else
    "Province mismatch: found \"" ++ geocodedProvince ++ "\" instead of \""
      ++ addressParts.province ++ "\""

/-- The Italian arm of the scoring loop (lines 339-391): on a passed deep
validation, score city/province/postcode matches; on a failed one, collect
city and province diagnostics; a thrown error is caught and its message
collected (the source's `catch` at lines 388-391). -/
def scoreItalianKM (km : KM) (addressParts : ParsedAddress) (result : Candidate) :
    List Scored × List String :=
  match validateAddressMatchKM km result.components addressParts with
  | .error msg => ([], [msg])
  | .ok true =>
    let geocodedCity :=
      jsOr result.components.city (jsOr result.components.town result.components.village)
    let geocodedProvince := result.components.county
    let m1 : Int := if fuzzyMatch geocodedCity addressParts.city then 1 else 0
    let m2 : Int := m1 +
      (if addressParts.province != "" && fuzzyMatch geocodedProvince addressParts.province
       then 1 else 0)
    let m3 : Int := m2 +
      (if addressParts.postcode != "" && result.components.postcode != ""
          && result.components.postcode == addressParts.postcode then 1 else 0)
    ([⟨result, m3 + result.confidence⟩], [])
  | .ok false =>
    let geocodedCity :=
      jsOr result.components.city (jsOr result.components.town result.components.village)
    let geocodedProvince := result.components.county
    let e1 : List String :=
      if geocodedCity != "" && addressParts.city != ""
          && !(fuzzyMatch geocodedCity addressParts.city) then
        ["City mismatch: found \"" ++ geocodedCity ++ "\" instead of \""
          ++ addressParts.city ++ "\""]
      else []
    let e2 : List String :=
      if addressParts.province != "" && geocodedProvince != ""
          && !(fuzzyMatch geocodedProvince addressParts.province) then
        [provinceDiag km geocodedCity geocodedProvince addressParts]
      else []
    ([], e1 ++ e2)

/-- One iteration of the scoring loop (lines 282-397) for one candidate:
either a single scored survivor or a list of collected diagnostics. The
unconditional confidence cutoff at line 283 precedes the country-code branch. -/
def scoreOneKM (km : KM) (addressParts : ParsedAddress) (result : Candidate) :
    List Scored × List String :=
  if result.confidence < 9 then
    ([], ["Low confidence (" ++ toString result.confidence ++ "/10)"])
  else if result.components.country_code != ""
      && toLowerStr result.components.country_code != "it" then
    scoreInternational addressParts result
  else
    scoreItalianKM km addressParts result

/-- The whole scoring loop: `validResults` and `validationErrors`, in
candidate order. -/
def scoringPassKM (km : KM) (addressParts : ParsedAddress) :
    List Candidate → List Scored × List String
  | [] => ([], [])
  | r :: rest =>
    ((scoreOneKM km addressParts r).1 ++ (scoringPassKM km addressParts rest).1,
     (scoreOneKM km addressParts r).2 ++ (scoringPassKM km addressParts rest).2)

/-- First element of maximal score: the head of the source's stable descending
sort (`validResults.sort((a, b) => b.score - a.score)[0]`, line 401-402). -/
def pickBestFrom (best : Scored) : List Scored → Scored
  | [] => best
  | y :: ys => pickBestFrom (if y.score > best.score then y else best) ys

/-- `validResults` selection: `none` when empty. -/
def pickBest : List Scored → Option Scored
  | [] => none
  | x :: xs => some (pickBestFrom x xs)

/-- The last-resort filter `r.confidence >= 8` of line 412. -/
def highConfPred (r : Candidate) : Bool := decide (8 ≤ r.confidence)

/-- Lines 399-418: return the best scored survivor; else throw the first
collected diagnostic; else return the first raw candidate with confidence at
least 8; else return `null`. -/
def scoringFallbackKM (km : KM) (results : List Candidate)
    (addressParts : ParsedAddress) : FBR :=
  match pickBest (scoringPassKM km addressParts results).1 with
  | some s => FBR.found s.result
  | none =>
    match (scoringPassKM km addressParts results).2 with
    | e :: _ => FBR.err ("VALIDATION_ERROR: " ++ e ++ ". Please verify the entered address.")
    | [] =>
      match results.filter highConfPred with
      | r :: _ => FBR.found r
      | [] => FBR.nullResult

/-! ## The primary selection branches and findBestResult -/

/-- Predicate of the `exactPostcodeAndRoad` search (lines 183-190). -/
def pcRoadPred (addressParts : ParsedAddress) (r : Candidate) : Bool :=
  r.components.postcode != "" && r.components.postcode == addressParts.postcode
    && r.components.road != "" && fuzzyMatch r.components.road addressParts.street

/-- Predicate of the `exactPostcode` search (lines 194-197). -/
def pcOnlyPred (addressParts : ParsedAddress) (r : Candidate) : Bool :=
  r.components.postcode != "" && r.components.postcode == addressParts.postcode

/-- Predicate of the road-only searches in the street branch
(lines 234-239 and 259-264). -/
def roadPred (addressParts : ParsedAddress) (r : Candidate) : Bool :=
  r.components.road != ""
    && fuzzyMatch (stripRoadType r.components.road) (stripRoadType addressParts.street)

/-- Predicate of the `roadAndCityMatch` search (lines 221-231). -/
def roadCityPred (addressParts : ParsedAddress) (r : Candidate) : Bool :=
  r.components.road != ""
    && fuzzyMatch (stripRoadType r.components.road) (stripRoadType addressParts.street)
    && ((r.components.city != "" && cityMatchStrict r.components.city addressParts.city)
      || (r.components.town != "" && cityMatchStrict r.components.town addressParts.city)
      || (r.components.village != ""
          && cityMatchStrict r.components.village addressParts.city)
      || (r.components.hamlet != ""
          && cityMatchStrict r.components.hamlet addressParts.city))

/-- The postcode-only fallback inside the postcode branch (lines 193-202). -/
def postcodeOnlyStep (filteredResults : List Candidate)
    (addressParts : ParsedAddress) : FBR :=
  match filteredResults.find? (pcOnlyPred addressParts) with
  | some r => FBR.found r
  | none =>
    FBR.err ("VALIDATION_ERROR: No result found with postcode " ++ addressParts.postcode
      ++ " and a valid road or square. Please verify the entered address.")

/-- The postcode-first branch (lines 180-202): postcode-and-road match, then
postcode-only match, then throw. -/
def postcodeBranch (filteredResults : List Candidate)
    (addressParts : ParsedAddress) : FBR :=
  if addressParts.street ≠ "" then
    match filteredResults.find? (pcRoadPred addressParts) with
    | some r => FBR.found r
    | none => postcodeOnlyStep filteredResults addressParts
  else postcodeOnlyStep filteredResults addressParts

/-- The suggestion-bearing error thrown at lines 233-256 when no road-and-city
match exists. -/
def streetCityErr (filteredResults : List Candidate)
    (addressParts : ParsedAddress) : FBR :=
  let roadMatches := filteredResults.filter (roadPred addressParts)
  let suggestion :=
    match roadMatches with
    | [] => ""
    | m :: _ =>
      let suggestedCity :=
        jsOr m.components.city
          (jsOr m.components.town (jsOr m.components.village m.components.hamlet))
      if suggestedCity != "" && toLowerStr suggestedCity != toLowerStr addressParts.city then
        " Did you mean \"" ++ addressParts.street ++ ", " ++ suggestedCity ++ "\"?"
      else ""
  let postcodeSuggestion :=
    if addressParts.postcode = "" then " Try adding a postcode to improve accuracy."
    else ""
  FBR.err ("VALIDATION_ERROR: No result found with street name \"" ++ addressParts.street
    ++ "\" and city \"" ++ addressParts.city ++ "\"." ++ suggestion ++ postcodeSuggestion
    ++ " Please verify the entered address.")

/-- The street branch (lines 203-269): with a parsed city, road fuzzy-match
plus strict city/town/village/hamlet match, else the suggestion-bearing throw;
without a parsed city, road fuzzy-match only. -/
def streetBranch (filteredResults : List Candidate)
    (addressParts : ParsedAddress) : FBR :=
  if addressParts.city ≠ "" then
    match filteredResults.find? (roadCityPred addressParts) with
    | some r => FBR.found r
    | none => streetCityErr filteredResults addressParts
  else
    match filteredResults.find? (roadPred addressParts) with
    | some r => FBR.found r
    | none =>
      FBR.err ("VALIDATION_ERROR: No result found with street name \"" ++ addressParts.street
        ++ "\". Please verify the entered address and insert the postcode if not present.")

/-- `findBestResult` (lines 171-419) with `checkKnownMismatches` abstracted as
`km`. With a non-empty result list: the road/square filter feeds the postcode
branch, the street branch, or the first-filtered-candidate return; only when
all three are inapplicable (no parsed postcode, no parsed street, empty
filtered list) does control fall through to the scoring fallback over the raw
list — as it also does for an empty result list. -/
def findBestResultKM (km : KM) (results : List Candidate) (originalAddress : String) : FBR :=
  if results.length > 0 then
    if (parseAddress originalAddress).postcode ≠ "" then
      postcodeBranch (results.filter hasRoadOrSquare) (parseAddress originalAddress)
    else if (parseAddress originalAddress).street ≠ "" then
      streetBranch (results.filter hasRoadOrSquare) (parseAddress originalAddress)
    else
      match results.filter hasRoadOrSquare with
      | r :: _ => FBR.found r
      | [] => scoringFallbackKM km results (parseAddress originalAddress)
  else scoringFallbackKM km results (parseAddress originalAddress)

/-- `findBestResult` as in the source. -/
def findBestResult : List Candidate → String → FBR :=
  findBestResultKM checkKnownMismatches

/-- The scoring loop with the source's `checkKnownMismatches`. -/
def scoringPass : ParsedAddress → List Candidate → List Scored × List String :=
  scoringPassKM checkKnownMismatches

/-- The scoring fallback with the source's `checkKnownMismatches`. -/
def scoringFallback : List Candidate → ParsedAddress → FBR :=
  scoringFallbackKM checkKnownMismatches

/-- The `geocode` response handler (lines 77-105): an empty provider list
throws `NO_RESULTS`; otherwise `findBestResult`'s candidate is returned, its
`VALIDATION_ERROR:`-tagged throws are re-thrown, and a `null` return (or any
untagged throw) becomes the generic `VALIDATION_ERROR`. -/
def geocodeOutcome (results : List Candidate) (address : String) : GeoOutcome :=
  if results.length > 0 then
    match findBestResult results address with
    | FBR.found c => GeoOutcome.ok c
    | FBR.nullResult =>
      GeoOutcome.validationError
        "VALIDATION_ERROR: Invalid or not found address. Please try again."
    | FBR.err m =>
      if jsStartsWith m "VALIDATION_ERROR:" then GeoOutcome.validationError m
      else
        GeoOutcome.validationError
          "VALIDATION_ERROR: Invalid or not found address. Please try again."
  else GeoOutcome.noResults "NO_RESULTS: No results found for this address."

/-- The fall-through condition of `findBestResult` for a non-empty list: no
parsed postcode, no parsed street, and no candidate with a road or square, so
control reaches the scoring fallback over the raw candidates. -/
def fallbackReached (results : List Candidate) (address : String) : Prop :=
  (parseAddress address).postcode = "" ∧ (parseAddress address).street = ""
    ∧ results.filter hasRoadOrSquare = []

instance (results : List Candidate) (address : String) :
    Decidable (fallbackReached results address) := by
  unfold fallbackReached; infer_instance

/-! ## Concrete inputs used by the claim witnesses and counterexamples -/

/-- Non-Italian candidate, confidence 9, with neither road nor square. -/
def cBerlin9 : Candidate :=
  { components := { city := "Berlin", country_code := "de" }, confidence := 9 }

/-- Non-Italian candidate, confidence 8, with neither road nor square. -/
def cBerlin8 : Candidate :=
  { components := { city := "Berlin", country_code := "de" }, confidence := 8 }

/-- Italian candidate, confidence 9, with neither road nor square. -/
def cItRome9 : Candidate :=
  { components := { city := "Roma", country_code := "it" }, confidence := 9 }

/-- The first candidate of the spec's postcode example (section 8). -/
def cMilanoPC : Candidate :=
  { components := { road := "Via Roma", city := "Milano", postcode := "20100" },
    confidence := 9 }

/-- The second candidate of the spec's postcode example (section 8). -/
def cFirenzePC : Candidate :=
  { components := { road := "Via Roma", city := "Firenze", postcode := "50100" },
    confidence := 8 }

/-- Italian candidate whose postcode disagrees with `partsPM`. -/
def cPmMismatch : Candidate :=
  { components := { city := "Roma", postcode := "00184", country_code := "it" },
    confidence := 9 }

/-- Italian candidate whose postcode agrees with `partsPM`. -/
def cPmOk : Candidate :=
  { components := { city := "Roma", postcode := "00100", country_code := "it" },
    confidence := 9 }

/-- Parsed address with a city and a postcode, for exercising the
postcode-mismatch path of `validateAddressMatch` inside the scoring loop. -/
def partsPM : ParsedAddress := { city := "Roma", postcode := "00100" }

/-- The message `validateAddressMatch` throws for `cPmMismatch` against
`partsPM`. -/
def pmMsg : String :=
  "VALIDATION_ERROR: Postcode mismatch: found \"00184\" instead of \"00100\". Please verify the entered address."

/-- Italian road-bearing candidate in Pisa. -/
def cPisa : Candidate :=
  { components := { road := "Via Roma", city := "Pisa", country_code := "it" },
    confidence := 9 }

/-- Word count as computed by `cityMatchStrict`
(`name.toLowerCase().trim().split(/\s+/).length`). -/
def wordCountJS (s : String) : Nat := (splitWsJS (jsTrim (toLowerStr s))).length

/-- Outcome agreement up to error-message text: same selected candidate, or
both a thrown error, or both `null`. -/
def FBR.agrees : FBR → FBR → Prop
  | FBR.found c1, FBR.found c2 => c1 = c2
  | FBR.err _, FBR.err _ => True
  | FBR.nullResult, FBR.nullResult => True
  | _, _ => False

/-! # Theorems -/

/-! ## Generic list helpers -/

theorem findSpec {α : Type} {p : α → Bool} {l : List α} {c : α}
    (hmem : c ∈ l) (hp : p c = true) :
    ∃ r, l.find? p = some r ∧ p r = true ∧ r ∈ l := by
  induction l with
  | nil => cases hmem
  | cons x xs ih =>
    by_cases hx : p x = true
    · exact ⟨x, by simp [List.find?_cons, hx], hx, List.mem_cons_self x xs⟩
    · have hx2 : p x = false := by simpa using hx
      rcases List.mem_cons.mp hmem with rfl | hmem2
      · exact absurd hp hx
      · obtain ⟨r, h1, h2, h3⟩ := ih hmem2
        exact ⟨r, by simp [List.find?_cons, hx2, h1], h2, List.mem_cons_of_mem x h3⟩

/-! ## Structural lemmas about the selection branches -/

theorem postcodeOnlyStep_found {fl : List Candidate} {p : ParsedAddress} {r : Candidate}
    (h : postcodeOnlyStep fl p = FBR.found r) :
    fl.find? (pcOnlyPred p) = some r := by
  unfold postcodeOnlyStep at h
  cases hf : fl.find? (pcOnlyPred p) with
  | some x =>
    rw [hf] at h
    have h2 : FBR.found x = FBR.found r := h
    injection h2 with hxr
    rw [hxr]
  | none =>
    rw [hf] at h
    exact absurd h (by simp)

theorem postcodeBranch_found {fl : List Candidate} {p : ParsedAddress} {r : Candidate}
    (h : postcodeBranch fl p = FBR.found r) :
    fl.find? (pcRoadPred p) = some r ∨ fl.find? (pcOnlyPred p) = some r := by
  unfold postcodeBranch at h
  by_cases hst : p.street ≠ ""
  · rw [if_pos hst] at h
    cases hf : fl.find? (pcRoadPred p) with
    | some x =>
      rw [hf] at h
      have h2 : FBR.found x = FBR.found r := h
      injection h2 with hxr
      exact Or.inl (congrArg some hxr)
    | none =>
      rw [hf] at h
      exact Or.inr (postcodeOnlyStep_found h)
  · rw [if_neg hst] at h
    exact Or.inr (postcodeOnlyStep_found h)

theorem streetBranch_found_city {fl : List Candidate} {p : ParsedAddress} {r : Candidate}
    (hc : p.city ≠ "") (h : streetBranch fl p = FBR.found r) :
    fl.find? (roadCityPred p) = some r := by
  unfold streetBranch at h
  rw [if_pos hc] at h
  cases hf : fl.find? (roadCityPred p) with
  | some x =>
    rw [hf] at h
    have h2 : FBR.found x = FBR.found r := h
    injection h2 with hxr
    rw [hxr]
  | none =>
    rw [hf] at h
    exact absurd h (by simp [streetCityErr])

theorem streetBranch_found {fl : List Candidate} {p : ParsedAddress} {r : Candidate}
    (h : streetBranch fl p = FBR.found r) :
    fl.find? (roadCityPred p) = some r ∨ fl.find? (roadPred p) = some r := by
  by_cases hc : p.city ≠ ""
  · exact Or.inl (streetBranch_found_city hc h)
  · unfold streetBranch at h
    rw [if_neg hc] at h
    cases hf : fl.find? (roadPred p) with
    | some x =>
      rw [hf] at h
      have h2 : FBR.found x = FBR.found r := h
      injection h2 with hxr
      exact Or.inr (congrArg some hxr)
    | none =>
      rw [hf] at h
      exact absurd h (by simp)

/-! ## Invariance of the selection outcome in the mismatch table (helpers) -/

theorem FBR.agrees_refl (x : FBR) : FBR.agrees x x := by
  cases x <;> simp [FBR.agrees]

theorem vamKM_irrel (km1 km2 : KM) (c : Components) (p : ParsedAddress) :
    validateAddressMatchKM km1 c p = validateAddressMatchKM km2 c p := by
  unfold validateAddressMatchKM
  simp only [ite_self]

theorem scoreItalianKM_fst (km1 km2 : KM) (p : ParsedAddress) (r : Candidate) :
    (scoreItalianKM km1 p r).1 = (scoreItalianKM km2 p r).1 := by
  unfold scoreItalianKM
  rw [vamKM_irrel km1 km2 r.components p]
  cases hv : validateAddressMatchKM km2 r.components p with
  | error msg => rfl
  | ok b => cases b <;> rfl

theorem scoreItalianKM_snd_nil (km1 km2 : KM) (p : ParsedAddress) (r : Candidate) :
    ((scoreItalianKM km1 p r).2 = []) ↔ ((scoreItalianKM km2 p r).2 = []) := by
  unfold scoreItalianKM
  rw [vamKM_irrel km1 km2 r.components p]
  cases hv : validateAddressMatchKM km2 r.components p with
  | error msg => exact Iff.rfl
  | ok b =>
    cases b
    · by_cases hc : (p.province != "" && r.components.county != ""
          && !(fuzzyMatch r.components.county p.province)) = true
      · simp [hc]
      · simp [hc]
    · exact Iff.rfl

theorem scoreOneKM_fst (km1 km2 : KM) (p : ParsedAddress) (r : Candidate) :
    (scoreOneKM km1 p r).1 = (scoreOneKM km2 p r).1 := by
  unfold scoreOneKM
  by_cases h1 : r.confidence < 9
  · simp only [if_pos h1]
  · simp only [if_neg h1]
    by_cases h2 : (r.components.country_code != ""
        && toLowerStr r.components.country_code != "it") = true
    · simp only [if_pos h2]
    · simp only [if_neg h2]
      exact scoreItalianKM_fst km1 km2 p r

theorem scoreOneKM_snd_nil (km1 km2 : KM) (p : ParsedAddress) (r : Candidate) :
    ((scoreOneKM km1 p r).2 = []) ↔ ((scoreOneKM km2 p r).2 = []) := by
  unfold scoreOneKM
  by_cases h1 : r.confidence < 9
  · simp only [if_pos h1]
  · simp only [if_neg h1]
    by_cases h2 : (r.components.country_code != ""
        && toLowerStr r.components.country_code != "it") = true
    · simp only [if_pos h2]
    · simp only [if_neg h2]
      exact scoreItalianKM_snd_nil km1 km2 p r

theorem scoringPassKM_cons (km : KM) (p : ParsedAddress) (r : Candidate)
    (rest : List Candidate) :
    scoringPassKM km p (r :: rest)
      = ((scoreOneKM km p r).1 ++ (scoringPassKM km p rest).1,
         (scoreOneKM km p r).2 ++ (scoringPassKM km p rest).2) := rfl

theorem scoringPassKM_fst (km1 km2 : KM) (p : ParsedAddress) (rs : List Candidate) :
    (scoringPassKM km1 p rs).1 = (scoringPassKM km2 p rs).1 := by
  induction rs with
  | nil => rfl
  | cons r rest ih =>
    show (scoreOneKM km1 p r).1 ++ (scoringPassKM km1 p rest).1
        = (scoreOneKM km2 p r).1 ++ (scoringPassKM km2 p rest).1
    rw [scoreOneKM_fst km1 km2 p r, ih]

theorem scoringPassKM_snd_nil (km1 km2 : KM) (p : ParsedAddress) (rs : List Candidate) :
    ((scoringPassKM km1 p rs).2 = []) ↔ ((scoringPassKM km2 p rs).2 = []) := by
  induction rs with
  | nil => exact Iff.rfl
  | cons r rest ih =>
    show ((scoreOneKM km1 p r).2 ++ (scoringPassKM km1 p rest).2 = [])
        ↔ ((scoreOneKM km2 p r).2 ++ (scoringPassKM km2 p rest).2 = [])
    simp only [List.append_eq_nil]
    constructor
    · rintro ⟨ha, hb⟩
      exact ⟨(scoreOneKM_snd_nil km1 km2 p r).mp ha, ih.mp hb⟩
    · rintro ⟨ha, hb⟩
      exact ⟨(scoreOneKM_snd_nil km1 km2 p r).mpr ha, ih.mpr hb⟩

theorem scoringFallbackKM_agrees (km1 km2 : KM) (rs : List Candidate) (p : ParsedAddress) :
    FBR.agrees (scoringFallbackKM km1 rs p) (scoringFallbackKM km2 rs p) := by
  unfold scoringFallbackKM
  rw [scoringPassKM_fst km1 km2 p rs]
  cases hpb : pickBest (scoringPassKM km2 p rs).1 with
  | some s => exact rfl
  | none =>
    by_cases h2 : (scoringPassKM km1 p rs).2 = []
    · rw [h2, (scoringPassKM_snd_nil km1 km2 p rs).mp h2]
      exact FBR.agrees_refl _
    · cases he1 : (scoringPassKM km1 p rs).2 with
      | nil => exact absurd he1 h2
      | cons e es =>
        cases he2 : (scoringPassKM km2 p rs).2 with
        | nil => exact absurd ((scoringPassKM_snd_nil km1 km2 p rs).mpr he2) h2
        | cons f fs => exact trivial

/-! ## Helpers about the scoring fallback and the deep validation check -/

theorem fbr_fallback {rs : List Candidate} {a : String} (hlen : rs.length > 0)
    (hfb : fallbackReached rs a) :
    findBestResult rs a = scoringFallback rs (parseAddress a) := by
  obtain ⟨hpc, hst, hfl⟩ := hfb
  unfold findBestResult findBestResultKM
  rw [if_pos hlen, if_neg (by simp [hpc]), if_neg (by simp [hst]), hfl]
  rfl

theorem scoreOne_low {km : KM} {p : ParsedAddress} {r : Candidate}
    (h : r.confidence < 9) :
    scoreOneKM km p r = ([], ["Low confidence (" ++ toString r.confidence ++ "/10)"]) := by
  unfold scoreOneKM
  rw [if_pos h]

theorem errsNilConf {km : KM} {p : ParsedAddress} {rs : List Candidate}
    (h : (scoringPassKM km p rs).2 = []) : ∀ r ∈ rs, 9 ≤ r.confidence := by
  induction rs with
  | nil => intro r hr; cases hr
  | cons x xs ih =>
    have hx2 : (scoreOneKM km p x).2 = [] ∧ (scoringPassKM km p xs).2 = [] := by
      simpa [scoringPassKM_cons, List.append_eq_nil] using h
    intro r hr
    rcases List.mem_cons.mp hr with rfl | hr2
    · by_contra hlt
      push_neg at hlt
      have := hx2.1
      rw [scoreOne_low hlt] at this
      simp at this
    · exact ih hx2.2 r hr2

theorem vam_error_country {km : KM} {c : Components} {p : ParsedAddress} {msg : String}
    (h : validateAddressMatchKM km c p = Except.error msg) : c.country_code = "it" := by
  by_contra hne
  unfold validateAddressMatchKM at h
  rw [if_pos (by simp [hne])] at h
  simp at h

theorem vam_error_pc {km : KM} {c : Components} {p : ParsedAddress} {msg : String}
    (h : validateAddressMatchKM km c p = Except.error msg) : p.postcode ≠ "" := by
  intro hpc
  unfold validateAddressMatchKM at h
  dsimp only at h
  split at h
  · simp at h
  · split at h
    · simp at h
    · split at h
      · split at h <;> simp at h
      · split at h
        · rename_i hcond
          rw [hpc] at hcond
          simp at hcond
        · simp at h

theorem cityMatchStrict_longer {geoName inputName : String}
    (h : wordCountJS inputName < wordCountJS geoName) :
    cityMatchStrict geoName inputName = false := by
  unfold wordCountJS at h
  unfold cityMatchStrict
  by_cases hg : geoName = ""
  · simp [hg]
  · by_cases hi : inputName = ""
    · simp [hi]
    · rw [if_neg (by simp [hg, hi])]
      rw [if_pos h]
      rw [ite_self]

/-! ## Claim C1 -/

/-- Claim C1, counterexample: `findBestResult` returns `cBerlin9`, a candidate
whose components contain neither a road nor a square field, so the road/square
filter does not protect the scoring fallback — the claimed invariant is false
as stated. -/
theorem c1_counterexample :
    findBestResult [cBerlin9] "" = FBR.found cBerlin9
      ∧ cBerlin9.components.road = "" ∧ cBerlin9.components.square = "" :=
  ⟨by decide, rfl, rfl⟩

/-- Claim C1, amended: a candidate returned by `findBestResult` whose
components lack both a road and a square can only come out of the scoring
fallback (and its confidence-8 last resort), which iterate the raw list: its
return forces the fall-through condition — no parsed postcode, no parsed
street, and a road/square filter that emptied the list. The postcode branch,
the street branch and the first-filtered-candidate return never produce such a
candidate. -/
theorem c1_thm (rs : List Candidate) (a : String) (r : Candidate)
    (hfound : findBestResult rs a = FBR.found r)
    (hroad : r.components.road = "") (hsq : r.components.square = "") :
    fallbackReached rs a := by
  have hnr : hasRoadOrSquare r = false := by
    simp [hasRoadOrSquare, hroad, hsq]
  have contra : ∀ pr : Candidate → Bool,
      (rs.filter hasRoadOrSquare).find? pr = some r → False := by
    intro pr hf
    have hmem := List.mem_of_find?_eq_some hf
    have htrue := (List.mem_filter.mp hmem).2
    rw [hnr] at htrue
    exact absurd htrue (by simp)
  unfold findBestResult findBestResultKM at hfound
  by_cases hlen : rs.length > 0
  · rw [if_pos hlen] at hfound
    by_cases hpc : (parseAddress a).postcode ≠ ""
    · rw [if_pos hpc] at hfound
      rcases postcodeBranch_found hfound with hf | hf
      · exact absurd hf (fun hh => contra _ hh)
      · exact absurd hf (fun hh => contra _ hh)
    · rw [if_neg hpc] at hfound
      by_cases hst : (parseAddress a).street ≠ ""
      · rw [if_pos hst] at hfound
        rcases streetBranch_found hfound with hf | hf
        · exact absurd hf (fun hh => contra _ hh)
        · exact absurd hf (fun hh => contra _ hh)
      · rw [if_neg hst] at hfound
        cases hfl : rs.filter hasRoadOrSquare with
        | cons x xs =>
          rw [hfl] at hfound
          have h2 : FBR.found x = FBR.found r := hfound
          injection h2 with hxr
          have hx : x ∈ rs.filter hasRoadOrSquare := by
            rw [hfl]; exact List.mem_cons_self x xs
          have htrue := (List.mem_filter.mp hx).2
          rw [hxr, hnr] at htrue
          exact absurd htrue (by simp)
        | nil =>
          refine ⟨?_, ?_, hfl⟩
          · by_contra hh; exact hpc hh
          · by_contra hh; exact hst hh
  · have hrsnil : rs = [] := by
      cases rs with
      | nil => rfl
      | cons x xs => exact absurd (by simp) hlen
    rw [hrsnil] at hfound
    have h2 : FBR.nullResult = FBR.found r := hfound
    exact absurd h2 (by simp)

/-- Claim C1, witness: the amended theorem applied to the concrete road-less,
square-less candidate returned through the scoring fallback. -/
theorem c1_witness : fallbackReached [cBerlin9] "" :=
  c1_thm [cBerlin9] "" cBerlin9 (by decide) rfl rfl

/-! ## Claim C2 -/

/-- Claim C2, counterexample: `fuzzyMatch "Monterotondo" "Monterotondo
Marittimo"` is `true`, not `false` as claimed — the word-boundary-prefix rule
fires because the second string starts with the first plus a space and has
more than one word; the word-count gate only restricts the substring and
edit-distance rules. -/
theorem c2_counterexample : fuzzyMatch "Monterotondo" "Monterotondo Marittimo" = true := by
  decide

/-- Claim C2, amended: `fuzzyMatch` is case/whitespace-insensitive on
"Via Roma" / "via roma", it accepts the Monterotondo pair by the prefix rule,
and the intended rejection of "Monterotondo" against "Monterotondo Marittimo"
is implemented in `cityMatchStrict` (the strict city match of the street
branch), which refuses a candidate name with more words than the input. -/
theorem c2_thm :
    fuzzyMatch "Via Roma" "via roma" = true
      ∧ fuzzyMatch "Monterotondo" "Monterotondo Marittimo" = true
      ∧ cityMatchStrict "Monterotondo Marittimo" "Monterotondo" = false :=
  ⟨by decide, by decide, by decide⟩

/-! ## Claim C3 -/

/-- Claim C3: for a non-empty candidate list reaching the scoring fallback
with no surviving scored candidate and no collected diagnostic, the outcome is
`NO_RESULTS` whenever no candidate has confidence at least 8 (this situation
is vacuous: absence of diagnostics forces every confidence to be at least 9,
so the confidence-8 last resort always returns a candidate), and a
`VALIDATION_ERROR` outcome occurs only when diagnostics were collected. -/
theorem c3_thm (rs : List Candidate) (a : String) (hne : rs ≠ [])
    (hfb : fallbackReached rs a)
    (hv : (scoringPass (parseAddress a) rs).1 = [])
    (he : (scoringPass (parseAddress a) rs).2 = []) :
    ((¬ ∃ r ∈ rs, 8 ≤ r.confidence) → (geocodeOutcome rs a).isNoResults = true)
      ∧ ((geocodeOutcome rs a).isValidationError = true →
          (scoringPass (parseAddress a) rs).2 ≠ []) := by
  have hlen : rs.length > 0 := List.length_pos.mpr hne
  obtain ⟨r0, rs2, rfl⟩ : ∃ r0 rs2, rs = r0 :: rs2 := by
    cases rs with
    | nil => exact absurd rfl hne
    | cons x xs => exact ⟨x, xs, rfl⟩
  have hv2 : (scoringPassKM checkKnownMismatches (parseAddress a) (r0 :: rs2)).1 = [] := hv
  have he2 : (scoringPassKM checkKnownMismatches (parseAddress a) (r0 :: rs2)).2 = [] := he
  have hconf := errsNilConf he2
  have h80 : highConfPred r0 = true := by
    have h9 := hconf r0 (List.mem_cons_self r0 rs2)
    simp [highConfPred]
    omega
  cases hfc : (r0 :: rs2).filter highConfPred with
  | nil =>
    exfalso
    have : r0 ∈ (r0 :: rs2).filter highConfPred :=
      List.mem_filter.mpr ⟨List.mem_cons_self r0 rs2, h80⟩
    rw [hfc] at this
    cases this
  | cons x xs =>
    have hsf : scoringFallback (r0 :: rs2) (parseAddress a) = FBR.found x := by
      unfold scoringFallback scoringFallbackKM
      rw [hv2, he2, hfc]
      rfl
    have hgeo : geocodeOutcome (r0 :: rs2) a = GeoOutcome.ok x := by
      unfold geocodeOutcome
      rw [if_pos hlen, fbr_fallback hlen hfb, hsf]
    constructor
    · intro hno
      exfalso
      exact hno ⟨r0, List.mem_cons_self r0 rs2, by
        have := hconf r0 (List.mem_cons_self r0 rs2); omega⟩
    · rw [hgeo]
      intro hvd
      simp [GeoOutcome.isValidationError] at hvd

/-- Claim C3, witness: a concrete non-empty list reaching the scoring fallback
with no survivor and no diagnostic (an Italian confidence-9 candidate against
the empty address), at which the theorem's hypotheses all hold. -/
theorem c3_witness :
    ([cItRome9] ≠ ([] : List Candidate))
      ∧ fallbackReached [cItRome9] ""
      ∧ (scoringPass (parseAddress "") [cItRome9]).1 = []
      ∧ (scoringPass (parseAddress "") [cItRome9]).2 = []
      ∧ ((geocodeOutcome [cItRome9] "").isValidationError = true →
          (scoringPass (parseAddress "") [cItRome9]).2 ≠ []) := by
  have h1 : [cItRome9] ≠ ([] : List Candidate) := by decide
  have h2 : fallbackReached [cItRome9] "" := by decide
  have h3 : (scoringPass (parseAddress "") [cItRome9]).1 = [] := by decide
  have h4 : (scoringPass (parseAddress "") [cItRome9]).2 = [] := by decide
  exact ⟨h1, h2, h3, h4, (c3_thm [cItRome9] "" h1 h2 h3 h4).2⟩

/-! ## Claim C4 -/

/-- Claim C4, counterexample: `validateAddressMatch` throws the postcode
mismatch for the first candidate, yet the scoring loop recovers locally and
returns the second candidate — the error is caught at lines 388-391, another
candidate is considered afterwards, and nothing propagates to the caller. -/
theorem c4_counterexample :
    validateAddressMatch cPmMismatch.components partsPM = Except.error pmMsg
      ∧ scoringFallback [cPmMismatch, cPmOk] partsPM = FBR.found cPmOk :=
  ⟨rfl, rfl⟩

/-- Claim C4, amended: a postcode mismatch thrown inside
`validateAddressMatch` is caught by the scoring loop, appended to the
diagnostics, and the loop continues with the remaining candidates (first
conjunct: one loop step over a throwing candidate contributes nothing to the
survivors and exactly its message to the diagnostics); moreover the throw is
unreachable in the integrated pipeline, since the scoring fallback only runs
when no postcode was parsed and `validateAddressMatch` cannot throw with an
empty parsed postcode (second conjunct). The message reaches the caller only
later, as the first collected diagnostic when no candidate survives. -/
theorem c4_thm :
    (∀ (p : ParsedAddress) (c : Candidate) (rest : List Candidate) (msg : String),
        validateAddressMatch c.components p = Except.error msg →
        ¬(c.confidence < 9) →
        scoringPass p (c :: rest)
          = ((scoringPass p rest).1, msg :: (scoringPass p rest).2))
      ∧ (∀ (c : Components) (p : ParsedAddress) (msg : String), p.postcode = "" →
          validateAddressMatch c p ≠ Except.error msg) := by
  constructor
  · intro p c rest msg hvam hconf
    have hcountry : c.components.country_code = "it" := vam_error_country hvam
    have hone : scoreOneKM checkKnownMismatches p c = ([], [msg]) := by
      unfold scoreOneKM
      rw [if_neg hconf, if_neg (by rw [hcountry]; decide)]
      unfold scoreItalianKM
      rw [show validateAddressMatchKM checkKnownMismatches c.components p
          = Except.error msg from hvam]
    show scoringPassKM checkKnownMismatches p (c :: rest)
        = ((scoringPassKM checkKnownMismatches p rest).1,
           msg :: (scoringPassKM checkKnownMismatches p rest).2)
    rw [scoringPassKM_cons, hone]
    simp
  · intro c p msg hpc h
    exact vam_error_pc h hpc

/-- Claim C4, witness: the amended theorem applied to the concrete
postcode-mismatch candidate followed by a valid one, and to a parsed address
with no postcode. -/
theorem c4_witness :
    scoringPass partsPM [cPmMismatch, cPmOk]
        = ((scoringPass partsPM [cPmOk]).1, pmMsg :: (scoringPass partsPM [cPmOk]).2)
      ∧ validateAddressMatch cPmOk.components { city := "Roma" } ≠ Except.error pmMsg :=
  ⟨c4_thm.1 partsPM cPmMismatch [cPmOk] pmMsg (by rfl) (by decide),
   c4_thm.2 cPmOk.components { city := "Roma" } pmMsg (by rfl)⟩

/-! ## Claim C5 -/

/-- Claim C5, counterexample: a non-Italian candidate with confidence 8 is
discarded by the low-confidence cutoff and never reaches per-field scoring —
the selection throws the low-confidence diagnostic instead of scoring it
(while its confidence-9 twin is scored and returned). -/
theorem c5_counterexample :
    findBestResult [cBerlin8] ""
        = FBR.err "VALIDATION_ERROR: Low confidence (8/10). Please verify the entered address."
      ∧ findBestResult [cBerlin9] "" = FBR.found cBerlin9 :=
  ⟨by decide, by decide⟩

/-- Claim C5, amended: in the scoring fallback the `confidence < 9` cutoff
precedes the country-code branch and discards the candidate on both the
Italian and the international path: one loop step over such a candidate
contributes nothing to the survivors and the low-confidence diagnostic to the
errors, with no country-code hypothesis. -/
theorem c5_thm (p : ParsedAddress) (r : Candidate) (rest : List Candidate)
    (h : r.confidence < 9) :
    scoringPass p (r :: rest)
      = ((scoringPass p rest).1,
         ("Low confidence (" ++ toString r.confidence ++ "/10)")
           :: (scoringPass p rest).2) := by
  show scoringPassKM checkKnownMismatches p (r :: rest)
      = ((scoringPassKM checkKnownMismatches p rest).1,
         ("Low confidence (" ++ toString r.confidence ++ "/10)")
           :: (scoringPassKM checkKnownMismatches p rest).2)
  rw [scoringPassKM_cons, scoreOne_low h]
  simp

/-- Claim C5, witness: the amended theorem applied to the concrete non-Italian
confidence-8 candidate. -/
theorem c5_witness :
    scoringPass (parseAddress "") [cBerlin8] = ([], ["Low confidence (8/10)"]) := by
  rw [c5_thm (parseAddress "") cBerlin8 [] (by decide)]
  decide

/-! ## Claim C6 -/

/-- Claim C6: when the parse yields a postcode and the list contains a
road/square-bearing candidate whose components postcode equals it (and whose
road fuzzy-matches the parsed street when one is present), `findBestResult`
returns a candidate from the list with that exact postcode — never one with a
different postcode, regardless of confidences. -/
theorem c6_thm (rs : List Candidate) (a : String) (c : Candidate)
    (hpc : (parseAddress a).postcode ≠ "") (hmem : c ∈ rs)
    (hrs : hasRoadOrSquare c = true)
    (hcpc : c.components.postcode = (parseAddress a).postcode)
    (hroad : (parseAddress a).street ≠ "" →
      c.components.road ≠ ""
        ∧ fuzzyMatch c.components.road ((parseAddress a).street) = true) :
    ∃ r, r ∈ rs ∧ hasRoadOrSquare r = true
      ∧ r.components.postcode = (parseAddress a).postcode
      ∧ findBestResult rs a = FBR.found r := by
  have hlen : rs.length > 0 := List.length_pos_of_mem hmem
  have hcf : c ∈ rs.filter hasRoadOrSquare := List.mem_filter.mpr ⟨hmem, hrs⟩
  have hpcc : c.components.postcode ≠ "" := by rw [hcpc]; exact hpc
  unfold findBestResult findBestResultKM
  rw [if_pos hlen, if_pos hpc]
  unfold postcodeBranch
  by_cases hst : (parseAddress a).street ≠ ""
  · rw [if_pos hst]
    have hpredc : pcRoadPred (parseAddress a) c = true := by
      obtain ⟨hr1, hr2⟩ := hroad hst
      simp [pcRoadPred, hpcc, hcpc, hr1, hr2, hpc]
    obtain ⟨r, hf, hpr, hrmem⟩ := findSpec hcf hpredc
    rw [hf]
    simp only [pcRoadPred, Bool.and_eq_true, beq_iff_eq, bne_iff_ne, ne_eq] at hpr
    exact ⟨r, (List.mem_filter.mp hrmem).1, (List.mem_filter.mp hrmem).2,
      hpr.1.1.2, rfl⟩
  · rw [if_neg hst]
    unfold postcodeOnlyStep
    have hpredc : pcOnlyPred (parseAddress a) c = true := by
      simp [pcOnlyPred, hpcc, hcpc, hpc]
    obtain ⟨r, hf, hpr, hrmem⟩ := findSpec hcf hpredc
    rw [hf]
    simp only [pcOnlyPred, Bool.and_eq_true, beq_iff_eq, bne_iff_ne, ne_eq] at hpr
    exact ⟨r, (List.mem_filter.mp hrmem).1, (List.mem_filter.mp hrmem).2,
      hpr.2, rfl⟩

/-- Claim C6, witness: the spec's concrete example — Milano/20100 at
confidence 9 versus Firenze/50100 at confidence 8 for input
"Via Roma, Firenze, 50100" — selects the second candidate. -/
theorem c6_witness :
    findBestResult [cMilanoPC, cFirenzePC] "Via Roma, Firenze, 50100"
      = FBR.found cFirenzePC := by
  obtain ⟨r, hmem, hrs, hpc, hfound⟩ :=
    c6_thm [cMilanoPC, cFirenzePC] "Via Roma, Firenze, 50100" cFirenzePC
      (by decide) (by simp) (by decide) (by decide)
      (fun _ => ⟨by decide, by decide⟩)
  simp only [List.mem_cons, List.not_mem_nil, or_false] at hmem
  rcases hmem with rfl | rfl
  · exact absurd hpc (by decide)
  · exact hfound

/-! ## Claim C7 -/

/-- Claim C7: parsing "Via Viale Antonio Gramsci, Firenze, FI, 50100" drops
the second adjacent road-type token, giving street "Via Antonio Gramsci",
city "Firenze", province "FI" and postcode "50100". -/
theorem c7_thm :
    parseAddress "Via Viale Antonio Gramsci, Firenze, FI, 50100"
      = { street := "Via Antonio Gramsci", city := "Firenze", province := "FI",
          county := "FI", postcode := "50100", country := "" } := by
  decide

/-! ## Claim C8 -/

/-- Claim C8: the value returned by `checkKnownMismatches` never changes which
candidate `findBestResult` returns, nor whether it fails or returns null —
replacing the known-mismatch function by any function whatsoever yields an
outcome that agrees up to error-message text, so pass/fail is fully determined
by the `fuzzyMatch`-based checks and the table only refines diagnostics. -/
theorem c8_thm (km1 km2 : KM) (rs : List Candidate) (a : String) :
    FBR.agrees (findBestResultKM km1 rs a) (findBestResultKM km2 rs a) := by
  unfold findBestResultKM
  by_cases hlen : rs.length > 0
  · simp only [if_pos hlen]
    by_cases hpc : (parseAddress a).postcode ≠ ""
    · simp only [if_pos hpc]
      exact FBR.agrees_refl _
    · simp only [if_neg hpc]
      by_cases hst : (parseAddress a).street ≠ ""
      · simp only [if_pos hst]
        exact FBR.agrees_refl _
      · simp only [if_neg hst]
        cases hfl : rs.filter hasRoadOrSquare with
        | cons x xs => exact rfl
        | nil => exact scoringFallbackKM_agrees km1 km2 rs (parseAddress a)
  · simp only [if_neg hlen]
    exact scoringFallbackKM_agrees km1 km2 rs (parseAddress a)

/-! ## Claim C10 -/

/-- Claim C10: in the street-with-city branch the strict city match rejects
every candidate name with strictly more whitespace-separated words than the
parsed city, word-boundary prefix or not (first conjunct); consequently a
candidate returned by that branch was accepted through one of its
city/town/village/hamlet names, and any accepting name has at most as many
words as the parsed city (second conjunct). -/
theorem c10_thm :
    (∀ geoName inputName : String, wordCountJS inputName < wordCountJS geoName →
      cityMatchStrict geoName inputName = false)
    ∧ (∀ (rs : List Candidate) (a : String) (r : Candidate),
        (parseAddress a).postcode = "" → (parseAddress a).street ≠ "" →
        (parseAddress a).city ≠ "" → findBestResult rs a = FBR.found r →
        (r.components.city ≠ ""
            ∧ cityMatchStrict r.components.city (parseAddress a).city = true
            ∧ wordCountJS r.components.city ≤ wordCountJS (parseAddress a).city)
          ∨ (r.components.town ≠ ""
            ∧ cityMatchStrict r.components.town (parseAddress a).city = true
            ∧ wordCountJS r.components.town ≤ wordCountJS (parseAddress a).city)
          ∨ (r.components.village ≠ ""
            ∧ cityMatchStrict r.components.village (parseAddress a).city = true
            ∧ wordCountJS r.components.village ≤ wordCountJS (parseAddress a).city)
          ∨ (r.components.hamlet ≠ ""
            ∧ cityMatchStrict r.components.hamlet (parseAddress a).city = true
            ∧ wordCountJS r.components.hamlet ≤ wordCountJS (parseAddress a).city)) := by
  have part1 : ∀ geoName inputName : String,
      wordCountJS inputName < wordCountJS geoName →
      cityMatchStrict geoName inputName = false := fun g i h => cityMatchStrict_longer h
  refine ⟨part1, ?_⟩
  intro rs a r hpc hst hcity hfound
  have wcBound : ∀ f : String, cityMatchStrict f (parseAddress a).city = true →
      wordCountJS f ≤ wordCountJS (parseAddress a).city := by
    intro f hmatch
    by_contra hlt
    push_neg at hlt
    rw [part1 f (parseAddress a).city hlt] at hmatch
    exact absurd hmatch (by simp)
  unfold findBestResult findBestResultKM at hfound
  by_cases hlen : rs.length > 0
  · rw [if_pos hlen, if_neg (by simp [hpc]), if_pos hst] at hfound
    have hf := streetBranch_found_city hcity hfound
    have hpr := List.find?_some hf
    simp only [roadCityPred, Bool.and_eq_true, Bool.or_eq_true, bne_iff_ne, ne_eq] at hpr
    obtain ⟨⟨hprA, hprB⟩, hdisj⟩ := hpr
    rcases hdisj with ((h4 | h4) | h4) | h4
    · exact Or.inl ⟨h4.1, h4.2, wcBound _ h4.2⟩
    · exact Or.inr (Or.inl ⟨h4.1, h4.2, wcBound _ h4.2⟩)
    · exact Or.inr (Or.inr (Or.inl ⟨h4.1, h4.2, wcBound _ h4.2⟩))
    · exact Or.inr (Or.inr (Or.inr ⟨h4.1, h4.2, wcBound _ h4.2⟩))
  · have hrsnil : rs = [] := by
      cases rs with
      | nil => rfl
      | cons x xs => exact absurd (by simp) hlen
    rw [hrsnil] at hfound
    have h2 : FBR.nullResult = FBR.found r := hfound
    exact absurd h2 (by simp)

/-- Claim C10, witness: the strict match rejects "Monterotondo Marittimo"
against "Monterotondo", and the street-with-city branch on
"Via Roma, Pisa" returns the Pisa candidate through a name of admissible word
count. -/
theorem c10_witness :
    cityMatchStrict "Monterotondo Marittimo" "Monterotondo" = false
      ∧ ((cPisa.components.city ≠ ""
            ∧ cityMatchStrict cPisa.components.city (parseAddress "Via Roma, Pisa").city = true
            ∧ wordCountJS cPisa.components.city
                ≤ wordCountJS (parseAddress "Via Roma, Pisa").city)
          ∨ (cPisa.components.town ≠ ""
            ∧ cityMatchStrict cPisa.components.town (parseAddress "Via Roma, Pisa").city = true
            ∧ wordCountJS cPisa.components.town
                ≤ wordCountJS (parseAddress "Via Roma, Pisa").city)
          ∨ (cPisa.components.village ≠ ""
            ∧ cityMatchStrict cPisa.components.village (parseAddress "Via Roma, Pisa").city = true
            ∧ wordCountJS cPisa.components.village
                ≤ wordCountJS (parseAddress "Via Roma, Pisa").city)
          ∨ (cPisa.components.hamlet ≠ ""
            ∧ cityMatchStrict cPisa.components.hamlet (parseAddress "Via Roma, Pisa").city = true
            ∧ wordCountJS cPisa.components.hamlet
                ≤ wordCountJS (parseAddress "Via Roma, Pisa").city)) :=
  ⟨c10_thm.1 "Monterotondo Marittimo" "Monterotondo" (by decide),
   c10_thm.2 [cPisa] "Via Roma, Pisa" cPisa (by decide) (by decide) (by decide) (by decide)⟩
